import Mathlib

/-
Verification of the persona-dispatch component of the workassist repository
(src/Work_Assist_Agents.py) against its natural-language specification.

The Python program is shallowly embedded: the persona table of
MultiAgentAssistant.__init__ becomes an association list, the method
get_agent_response becomes a pure function over a mocked HTTP provider
(the single requests.post call is replaced by a ProviderBehavior value
describing what the provider would do), and the Streamlit submit handler
of main becomes a pure state-transition function on the session task list.
Python exceptions are modelled explicitly: a value that the surrounding
code does not catch is a PyResult.exn result.
-/

namespace WorkAssist

/-- Persona record: the value type of the `self.agents` dictionary built in
`MultiAgentAssistant.__init__` (description, prompt-prefix string, color). -/
structure Persona where
  description : String
  prompt_prefix : String
  color : String
  deriving DecidableEq, Repr

/-- Association-list lookup mirroring Python dict indexing `d[key]`
(dict keys are unique, so first match equals the dict entry). -/
def dictLookup {α : Type} : List (String × α) → String → Option α
  | [], _ => none
  | (k, v) :: rest, key => if key = k then some v else dictLookup rest key

/-- The `self.agents` dictionary of `MultiAgentAssistant.__init__`
(src/Work_Assist_Agents.py lines 69-115), in definition order.
Python 3.7+ dicts iterate in insertion order, so the list order is
the iteration order of the source dict. -/
def agents : List (String × Persona) :=
  [ ("📋 Checksheet Specialist",
     { description := "Creates comprehensive checklists, audit forms, and quality control sheets",
       prompt_prefix := "You are a Checksheet Specialist expert in creating detailed, professional checklists and audit forms. Focus on completeness, clarity, and actionability.",
       color := "#FF6B6B" }),
    ("📊 Data Analyst",
     { description := "Analyzes data, creates visualizations, and provides insights",
       prompt_prefix := "You are a Data Analyst expert in statistical analysis, data visualization, and business intelligence. Provide clear insights with actionable recommendations.",
       color := "#4ECDC4" }),
    ("📈 Spreadsheet Expert",
     { description := "Designs and optimizes spreadsheets with formulas and automation",
       prompt_prefix := "You are a Spreadsheet Expert specialized in Excel/Google Sheets optimization, complex formulas, and data organization. Create efficient, user-friendly solutions.",
       color := "#45B7D1" }),
    ("💡 Strategic Advisor",
     { description := "Provides strategic business advice and decision-making support",
       prompt_prefix := "You are a Strategic Business Advisor with expertise in business strategy, decision-making frameworks, and organizational development. Provide thoughtful, actionable advice.",
       color := "#96CEB4" }),
    ("👥 Leadership Coach",
     { description := "Offers leadership development and team management guidance",
       prompt_prefix := "You are a Leadership Coach specializing in team development, communication, and leadership effectiveness. Provide practical, empathetic guidance.",
       color := "#FFEAA7" }),
    ("🎯 Six Sigma Black Belt",
     { description := "Applies Six Sigma methodology for process improvement",
       prompt_prefix := "You are a Six Sigma Black Belt expert in DMAIC methodology, statistical process control, and quality improvement. Focus on data-driven solutions.",
       color := "#DDA0DD" }),
    ("⚡ Lean Manufacturing Expert",
     { description := "Implements lean principles and waste reduction strategies",
       prompt_prefix := "You are a Lean Manufacturing Expert specializing in waste elimination, value stream mapping, and continuous improvement. Focus on efficiency and value creation.",
       color := "#98D8C8" }),
    ("🎯 Productivity Coach",
     { description := "Helps with task management, prioritization, and productivity optimization",
       prompt_prefix := "You are a Productivity Coach expert in time management, goal setting, and workflow optimization. Help users stay focused and achieve their objectives.",
       color := "#F7DC6F" }),
    ("🤖 General Assistant",
     { description := "Handles diverse tasks and provides comprehensive support",
       prompt_prefix := "You are a versatile General Assistant capable of handling various business tasks. Adapt your expertise to the specific needs presented.",
       color := "#BB8FCE" }) ]

/-- Result of running a piece of Python code: either a returned value or an
exception that the code under consideration does not catch. -/
inductive PyResult (α : Type) where
  | ok (a : α)
  | exn (e : String)
  deriving DecidableEq, Repr

/-- Minimal JSON value type for the parsed provider response body
(`response.json()`). -/
inductive Json where
  | str (s : String)
  | num (n : Int)
  | arr (elems : List Json)
  | obj (fields : List (String × Json))

/-- Lookup of a field in a JSON object field list (Python `d["k"]`). -/
def jsonField : List (String × Json) → String → Option Json
  | [], _ => none
  | (k, v) :: rest, key => if key = k then some v else jsonField rest key

/-- The extraction `result["content"][0]["text"]` performed on the parsed
200-response (src line 161).  Each failing subscript raises the
corresponding Python exception, modelled as `PyResult.exn` with an
indicative message (the exact message text is not relied upon by any
claim: these exceptions are all caught by the enclosing `except`). -/
def contentFirstText (j : Json) : PyResult Json :=
  match j with
  | .obj fields =>
    match jsonField fields "content" with
    | none => .exn "KeyError: content"
    | some (.arr []) => .exn "IndexError: list index out of range"
    | some (.arr (e :: _)) =>
      match e with
      | .obj efields =>
        match jsonField efields "text" with
        | none => .exn "KeyError: text"
        | some v => .ok v
      | _ => .exn "TypeError: element is not subscriptable"
    | some _ => .exn "TypeError: content is not a list"
  | _ => .exn "TypeError: result is not subscriptable"

/-- Conversion of the extracted JSON value to the string the Python function
returns.  On every path exercised by the specification the value is a JSON
string, which Python returns verbatim. -/
def pyStr : Json → String
  | .str s => s
  | .num n => toString n
  | .arr _ => "<list>"
  | .obj _ => "<dict>"

/-- Mock of the single `requests.post` call: the provider either raises
(network failure, timeout) or responds with a status code, a body text
(`response.text`) and the outcome of parsing the body (`response.json()`,
which itself can raise on a malformed body). -/
inductive ProviderBehavior where
  | raises (msg : String)
  | responds (status_code : Nat) (text : String) (json : PyResult Json)

/-- Fixed leading text of the prompt f-string (src line 120-121): a newline
and the 8-space indentation before the prompt-prefix interpolation. -/
def promptIntro : String := "\n        "

/-- Fixed text between the prompt-prefix and the problem description
(src lines 121-123). -/
def promptMid1 : String := "\n        \n        Problem/Task: "

/-- Fixed text between the problem description and the additional context
(src lines 123-125). -/
def promptMid2 : String := "\n        \n        Additional Context: "

/-- Fixed instructional suffix of the prompt f-string (src lines 125-135),
requesting the five structured sections. -/
def promptTail : String :=
  "\n        \n        Please provide a comprehensive response that includes:\n        1. Analysis of the situation\n        2. Specific recommendations or solutions\n        3. Step-by-step action items where applicable\n        4. Expected outcomes or benefits\n        5. Any templates, examples, or tools that would be helpful\n        \n        Format your response clearly with headers and bullet points where appropriate.\n        "

/-- The `full_prompt` f-string of `get_agent_response`
(src lines 120-135). -/
def mkFullPrompt (pp problem_description additional_context : String) : String :=
  promptIntro ++ pp ++ promptMid1 ++ problem_description ++ promptMid2
    ++ additional_context ++ promptTail

/-- Observable outcome of one call to `get_agent_response`: the returned
string or uncaught exception, how many times `requests.post` was invoked,
and the prompt sent as the message content when a request was issued. -/
structure DispatchOutcome where
  result : PyResult String
  networkCalls : Nat
  sentPrompt : Option String
  deriving DecidableEq, Repr

/-- Shallow embedding of `MultiAgentAssistant.get_agent_response`
(src lines 117-166).  `ag` is the `self.agents` dictionary and `provider`
mocks the single `requests.post` call.  Note that the persona lookup
`self.agents[agent_name]` (line 118) happens OUTSIDE the try block, so an
unknown persona raises a KeyError that propagates to the caller; everything
raised inside the try block is converted by the `except` clause (line 165)
to the string `"Error getting response from <agent_name>: <e>"`. -/
def get_agent_response (ag : List (String × Persona)) (provider : ProviderBehavior)
    (agent_name problem_description additional_context : String) : DispatchOutcome :=
  match dictLookup ag agent_name with
  | none => { result := .exn ("KeyError: " ++ agent_name), networkCalls := 0, sentPrompt := none }
  | some agent_info =>
    let full_prompt := mkFullPrompt (Persona.prompt_prefix agent_info)
        problem_description additional_context
    match provider with
    | .raises msg =>
      { result := .ok ("Error getting response from " ++ agent_name ++ ": " ++ msg),
        networkCalls := 1, sentPrompt := some full_prompt }
    | .responds status_code text json =>
      if status_code = 200 then
        match json with
        | .exn msg =>
          { result := .ok ("Error getting response from " ++ agent_name ++ ": " ++ msg),
            networkCalls := 1, sentPrompt := some full_prompt }
        | .ok j =>
          match contentFirstText j with
          | .ok v =>
            { result := .ok (pyStr v), networkCalls := 1, sentPrompt := some full_prompt }
          | .exn msg =>
            { result := .ok ("Error getting response from " ++ agent_name ++ ": " ++ msg),
              networkCalls := 1, sentPrompt := some full_prompt }
      else
        { result := .ok ("Error: " ++ toString status_code ++ " - " ++ text),
          networkCalls := 1, sentPrompt := some full_prompt }

/-- One task record appended to `st.session_state.tasks` by the Problem
Solver submit handler (src lines 342-352). -/
structure Task where
  id : Nat
  title : String
  agent : String
  priority : String
  urgency : String
  status : String
  created : String
  response : String
  deriving DecidableEq, Repr

/-- The context string the submit handler passes to the dispatcher
(src line 334): the f-string
`"Priority: \x7bpriority\x7d, Urgency: \x7burgency\x7d. \x7badditional_context\x7d"`. -/
def uiContext (priority urgency additional_context : String) : String :=
  "Priority: " ++ priority ++ ", Urgency: " ++ urgency ++ ". " ++ additional_context

/-- Task title as built on src line 344: the problem description truncated
to 50 characters with an ellipsis when longer than 50. -/
def mkTitle (problem_description : String) : String :=
  if problem_description.length > 50
  then problem_description.take 50 ++ "..."
  else problem_description

/-- What the submit handler did, as observed by the user:  the completion
branch (response shown, task appended), an exception that escaped the
handler (unknown persona), or one of the two warnings of src
lines 354-357. -/
inductive SubmitEvent where
  | completed (response : String)
  | uncaught (e : String)
  | warnedDescribeProblem
  | warnedSelectAgent
  deriving DecidableEq, Repr

/-- Observable outcome of one run of the submit handler: resulting task
list, number of `requests.post` invocations, the `additional_context`
argument passed to `get_agent_response` (when it was called), the prompt it
sent, and the user-visible event. -/
structure SubmitOutcome where
  tasks : List Task
  networkCalls : Nat
  passedContext : Option String
  sentPrompt : Option String
  event : SubmitEvent
  deriving DecidableEq, Repr

/-- What happens after the dispatcher call inside the submit handler
(src lines 331-352): if `get_agent_response` raised, the exception escapes
and nothing is appended; if it returned a string, the response is shown
and a task with status `"Completed"` is appended to the log. -/
def recordSubmit (tasks : List Task)
    (name problem_description priority urgency created context : String)
    (o : DispatchOutcome) : SubmitOutcome :=
  match o.result with
  | .exn e =>
    { tasks := tasks, networkCalls := o.networkCalls, passedContext := some context,
      sentPrompt := o.sentPrompt, event := .uncaught e }
  | .ok response =>
    { tasks := tasks ++
        [{ id := tasks.length + 1,
           title := mkTitle problem_description,
           agent := name,
           priority := priority,
           urgency := urgency,
           status := "Completed",
           created := created,
           response := response }],
      networkCalls := o.networkCalls, passedContext := some context,
      sentPrompt := o.sentPrompt, event := .completed response }

/-- Shallow embedding of the Problem Solver submit handler
(src lines 328-357).  Python truthiness: the dispatch branch requires a
non-empty `problem_description` and a selected agent that is neither `None`
nor the empty string; otherwise one of the two warnings is shown and
nothing else happens.  A task is appended (status always `"Completed"`)
only after `get_agent_response` returns; if it raises, the append is never
reached. -/
def submit (ag : List (String × Persona)) (provider : ProviderBehavior)
    (tasks : List Task) (selected_agent : Option String)
    (problem_description additional_context priority urgency created : String) :
    SubmitOutcome :=
  if problem_description.isEmpty then
    { tasks := tasks, networkCalls := 0, passedContext := none, sentPrompt := none,
      event := .warnedDescribeProblem }
  else
    match selected_agent with
    | none =>
      { tasks := tasks, networkCalls := 0, passedContext := none, sentPrompt := none,
        event := .warnedSelectAgent }
    | some name =>
      if name.isEmpty then
        { tasks := tasks, networkCalls := 0, passedContext := none, sentPrompt := none,
          event := .warnedSelectAgent }
      else
        recordSubmit tasks name problem_description priority urgency created
          (uiContext priority urgency additional_context)
          (get_agent_response ag provider name problem_description
            (uiContext priority urgency additional_context))

/-- Session state relevant to the claims: the assistant object with its
persona dictionary (`st.session_state.assistant`) and the task log
(`st.session_state.tasks`). -/
structure State where
  agents : List (String × Persona)
  tasks : List Task
  deriving DecidableEq, Repr

/-- Initial session state (src lines 242-246): empty task list, assistant
constructed from the entered API key with its fixed persona dictionary. -/
def initState : State := { agents := agents, tasks := [] }

/-- User-level actions affecting the session state: submitting the Problem
Solver form, clearing all tasks (src lines 405-407), and re-entering an API
key, which rebuilds the assistant with an identical persona dictionary
(src lines 262-263). -/
inductive Action where
  | submitA (provider : ProviderBehavior) (selected_agent : Option String)
      (problem_description additional_context priority urgency created : String)
  | clearAll
  | setApiKey

/-- State transition for one user action. -/
def step (s : State) : Action → State
  | .submitA provider sel problem ctx pri urg created =>
    { s with tasks := (submit s.agents provider s.tasks sel problem ctx pri urg created).tasks }
  | .clearAll => { s with tasks := [] }
  | .setApiKey => { s with agents := agents }

/-- Run of a sequence of user actions from a state. -/
def run (s : State) (acts : List Action) : State :=
  acts.foldl step s

/-- The ordered sequence of registry entries `Registry.list()` observes:
the persona dictionary in its (insertion = definition) iteration order. -/
def registryList (s : State) : List (String × Persona) :=
  s.agents

/-- Registry lookup `self.agents[persona_id]` as a standalone operation:
returns the persona or raises KeyError (Python dict indexing). -/
def registryGet (persona_id : String) : PyResult Persona :=
  match dictLookup agents persona_id with
  | some p => .ok p
  | none => .exn ("KeyError: " ++ persona_id)

/-- An action is a successful dispatch: a submit with a non-empty problem
description and a selected persona present in the registry (such a dispatch
always returns a string and appends a task). -/
def successfulDispatch : Action → Prop
  | .submitA _ sel problem _ _ _ _ =>
    problem ≠ "" ∧ ∃ name info, sel = some name ∧ dictLookup agents name = some info
  | _ => False

/-- Substring test helper: does the needle occur at the head of the hay? -/
def matchesAt : List Char → List Char → Bool
  | [], _ => true
  | _ :: _, [] => false
  | n :: ns, h :: hs => n == h && matchesAt ns hs

/-- Substring test helper: does the needle occur anywhere in the hay? -/
def hasSubAux (needle : List Char) : List Char → Bool
  | [] => needle.isEmpty
  | h :: hs => matchesAt needle (h :: hs) || hasSubAux needle hs

/-- Whether `needle` occurs as a contiguous substring of `hay`. -/
def strHasSub (hay needle : String) : Bool :=
  hasSubAux needle.data hay.data

/-- A successful association-list lookup returns the value the list pairs
with the requested key. -/
theorem dictLookup_mem {α : Type} (d : List (String × α)) (k : String) (v : α)
    (h : dictLookup d k = some v) : (k, v) ∈ d := by
  induction d with
  | nil => exact absurd h (by simp [dictLookup])
  | cons hd tl ih =>
    obtain ⟨k2, v2⟩ := hd
    by_cases hk : k = k2
    · subst hk
      have h2 : some v2 = some v := by simpa [dictLookup] using h
      obtain rfl := Option.some.inj h2
      exact List.mem_cons_self _ _
    · simp only [dictLookup, if_neg hk] at h
      exact List.mem_cons_of_mem _ (ih h)

/-- When the keys are distinct (as in a Python dict), every entry of the
association list is found by looking up its key. -/
theorem dictLookup_of_mem_nodup {α : Type} (d : List (String × α)) (k : String) (v : α)
    (hnd : (d.map Prod.fst).Nodup) (h : (k, v) ∈ d) : dictLookup d k = some v := by
  induction d with
  | nil => exact absurd h (List.not_mem_nil _)
  | cons hd tl ih =>
    obtain ⟨k2, v2⟩ := hd
    simp only [List.map_cons, List.nodup_cons] at hnd
    rcases List.mem_cons.mp h with heq | hmem
    · obtain ⟨rfl, rfl⟩ := Prod.mk.inj heq
      simp [dictLookup]
    · have hk : ¬ k = k2 := by
        intro hkk
        subst hkk
        exact hnd.1 (List.mem_map.mpr ⟨(k, v), hmem, rfl⟩)
      simp only [dictLookup, if_neg hk]
      exact ih hnd.2 hmem

/-- The persona identifiers of the registry are pairwise distinct. -/
theorem agents_keys_nodup : (agents.map Prod.fst).Nodup := by decide

/-- Lookup of a key absent from the association list fails. -/
theorem dictLookup_eq_none {α : Type} (d : List (String × α)) (k : String)
    (h : k ∉ d.map Prod.fst) : dictLookup d k = none := by
  induction d with
  | nil => rfl
  | cons hd tl ih =>
    obtain ⟨k2, v2⟩ := hd
    simp only [List.map_cons, List.mem_cons] at h
    push_neg at h
    simp only [dictLookup, if_neg h.1]
    exact ih h.2

/-- The empty string is not a persona identifier. -/
theorem agents_lookup_empty : dictLookup agents "" = none := by decide

/-- A registered persona name is not the empty string. -/
theorem known_name_ne_empty (name : String) (info : Persona)
    (h : dictLookup agents name = some info) : ¬ name = "" := by
  intro he
  subst he
  rw [agents_lookup_empty] at h
  exact Option.noConfusion h

/-- A non-empty string has `isEmpty = false`. -/
theorem isEmpty_false_of_ne (s : String) (h : ¬ s = "") : s.isEmpty = false := by
  rw [Bool.eq_false_iff]
  intro he
  exact h ((String.isEmpty_iff s).mp he)

/-- Evaluation of the dispatcher when the network call raises: the
exception is caught and formatted with the persona name (src line 166). -/
theorem gar_eq_raises (ag : List (String × Persona))
    (name problem_description additional_context msg : String) (info : Persona)
    (h : dictLookup ag name = some info) :
    get_agent_response ag (.raises msg) name problem_description additional_context
      = { result := .ok ("Error getting response from " ++ name ++ ": " ++ msg),
          networkCalls := 1,
          sentPrompt := some (mkFullPrompt (Persona.prompt_prefix info)
            problem_description additional_context) } := by
  unfold get_agent_response
  rw [h]

/-- Evaluation of the dispatcher when the provider responds with a non-200
status: the descriptive error string of src line 163. -/
theorem gar_eq_non200 (ag : List (String × Persona))
    (name problem_description additional_context text : String) (info : Persona)
    (status_code : Nat) (json : PyResult Json)
    (h : dictLookup ag name = some info) (hs : status_code ≠ 200) :
    get_agent_response ag (.responds status_code text json) name problem_description
        additional_context
      = { result := .ok ("Error: " ++ toString status_code ++ " - " ++ text),
          networkCalls := 1,
          sentPrompt := some (mkFullPrompt (Persona.prompt_prefix info)
            problem_description additional_context) } := by
  simp [get_agent_response, h, hs]

/-- Evaluation of the dispatcher when the 200-response body fails to parse:
the exception is caught and formatted with the persona name. -/
theorem gar_eq_200_parsefail (ag : List (String × Persona))
    (name problem_description additional_context text msg : String) (info : Persona)
    (h : dictLookup ag name = some info) :
    get_agent_response ag (.responds 200 text (.exn msg)) name problem_description
        additional_context
      = { result := .ok ("Error getting response from " ++ name ++ ": " ++ msg),
          networkCalls := 1,
          sentPrompt := some (mkFullPrompt (Persona.prompt_prefix info)
            problem_description additional_context) } := by
  simp [get_agent_response, h]

/-- Evaluation of the dispatcher when the 200-response parses and the
extraction `result["content"][0]["text"]` succeeds. -/
theorem gar_eq_200_extract (ag : List (String × Persona))
    (name problem_description additional_context text : String) (info : Persona)
    (j v : Json)
    (h : dictLookup ag name = some info) (hct : contentFirstText j = .ok v) :
    get_agent_response ag (.responds 200 text (.ok j)) name problem_description
        additional_context
      = { result := .ok (pyStr v),
          networkCalls := 1,
          sentPrompt := some (mkFullPrompt (Persona.prompt_prefix info)
            problem_description additional_context) } := by
  simp [get_agent_response, h, hct]

/-- Evaluation of the dispatcher when the 200-response parses but the
extraction raises: the exception is caught and formatted with the persona
name. -/
theorem gar_eq_200_extractfail (ag : List (String × Persona))
    (name problem_description additional_context text msg : String) (info : Persona)
    (j : Json)
    (h : dictLookup ag name = some info) (hct : contentFirstText j = .exn msg) :
    get_agent_response ag (.responds 200 text (.ok j)) name problem_description
        additional_context
      = { result := .ok ("Error getting response from " ++ name ++ ": " ++ msg),
          networkCalls := 1,
          sentPrompt := some (mkFullPrompt (Persona.prompt_prefix info)
            problem_description additional_context) } := by
  simp [get_agent_response, h, hct]

/-- For a registered persona, `get_agent_response` always returns a string
(never lets an exception escape), issues exactly one network call, and
sends `mkFullPrompt` of the prompt-prefix, problem and context as the
message content, whatever the provider does. -/
theorem gar_known (ag : List (String × Persona)) (provider : ProviderBehavior)
    (name problem_description additional_context : String) (info : Persona)
    (h : dictLookup ag name = some info) :
    (∃ r, (get_agent_response ag provider name problem_description additional_context).result
        = .ok r)
    ∧ (get_agent_response ag provider name problem_description additional_context).networkCalls
        = 1
    ∧ (get_agent_response ag provider name problem_description additional_context).sentPrompt
        = some (mkFullPrompt (Persona.prompt_prefix info) problem_description
            additional_context) := by
  cases provider with
  | raises msg =>
    rw [gar_eq_raises ag name problem_description additional_context msg info h]
    exact ⟨⟨_, rfl⟩, rfl, rfl⟩
  | responds status_code text json =>
    by_cases hs : status_code = 200
    · subst hs
      cases json with
      | exn msg =>
        rw [gar_eq_200_parsefail ag name problem_description additional_context text msg info h]
        exact ⟨⟨_, rfl⟩, rfl, rfl⟩
      | ok j =>
        cases hct : contentFirstText j with
        | ok v =>
          rw [gar_eq_200_extract ag name problem_description additional_context text info j v h hct]
          exact ⟨⟨_, rfl⟩, rfl, rfl⟩
        | exn msg =>
          rw [gar_eq_200_extractfail ag name problem_description additional_context text msg info j h hct]
          exact ⟨⟨_, rfl⟩, rfl, rfl⟩
    · rw [gar_eq_non200 ag name problem_description additional_context text info status_code json h hs]
      exact ⟨⟨_, rfl⟩, rfl, rfl⟩

/-- An unknown persona makes `get_agent_response` raise an uncaught
KeyError before any network call. -/
theorem gar_unknown (ag : List (String × Persona)) (provider : ProviderBehavior)
    (name problem_description additional_context : String)
    (h : dictLookup ag name = none) :
    (get_agent_response ag provider name problem_description additional_context).result
      = .exn ("KeyError: " ++ name)
    ∧ (get_agent_response ag provider name problem_description additional_context).networkCalls
      = 0 := by
  unfold get_agent_response
  rw [h]
  exact ⟨rfl, rfl⟩

/-- No user action changes the persona dictionary of the session state. -/
theorem step_agents (s : State) (a : Action) (h : s.agents = agents) :
    (step s a).agents = agents := by
  cases a with
  | submitA provider sel problem ctx pri urg created => exact h
  | clearAll => exact h
  | setApiKey => rfl

/-- Running any action sequence preserves the persona dictionary. -/
theorem run_agents (acts : List Action) :
    ∀ s : State, s.agents = agents → (run s acts).agents = agents := by
  induction acts with
  | nil => intro s h; exact h
  | cons a tl ih => intro s h; exact ih _ (step_agents s a h)

/-- Both branches of the post-dispatch recording pass the same context. -/
theorem recordSubmit_passedContext (tasks : List Task)
    (name problem_description priority urgency created context : String)
    (o : DispatchOutcome) :
    (recordSubmit tasks name problem_description priority urgency created context o).passedContext
      = some context := by
  unfold recordSubmit
  split <;> rfl

/-- Both branches of the post-dispatch recording report the network calls
of the dispatch. -/
theorem recordSubmit_networkCalls (tasks : List Task)
    (name problem_description priority urgency created context : String)
    (o : DispatchOutcome) :
    (recordSubmit tasks name problem_description priority urgency created context o).networkCalls
      = o.networkCalls := by
  unfold recordSubmit
  split <;> rfl

/-- When the dispatch returned a string, the handler appends one task with
the next id and status Completed. -/
theorem recordSubmit_ok (tasks : List Task)
    (name problem_description priority urgency created context r : String)
    (o : DispatchOutcome) (h : o.result = .ok r) :
    recordSubmit tasks name problem_description priority urgency created context o
      = { tasks := tasks ++
            [{ id := tasks.length + 1,
               title := mkTitle problem_description,
               agent := name,
               priority := priority,
               urgency := urgency,
               status := "Completed",
               created := created,
               response := r }],
          networkCalls := o.networkCalls, passedContext := some context,
          sentPrompt := o.sentPrompt, event := .completed r } := by
  unfold recordSubmit
  rw [h]

/-- When the problem description is non-empty and a (non-empty) agent name
is selected, the submit handler builds the priority/urgency context,
dispatches, and records the outcome. -/
theorem submit_eq_record (ag : List (String × Persona)) (provider : ProviderBehavior)
    (tasks : List Task)
    (name problem_description additional_context priority urgency created : String)
    (hp : problem_description ≠ "") (hn : name ≠ "") :
    submit ag provider tasks (some name) problem_description additional_context priority
        urgency created
      = recordSubmit tasks name problem_description priority urgency created
          (uiContext priority urgency additional_context)
          (get_agent_response ag provider name problem_description
            (uiContext priority urgency additional_context)) := by
  simp [submit, isEmpty_false_of_ne _ hp, isEmpty_false_of_ne _ hn]

/-- C1 (counterexample): called directly with an empty problem description
and a registered persona, the dispatcher raises no validation failure: it
issues one network call and returns a string, contradicting the claim that
dispatch fails with ValidationError before any HTTP request. -/
theorem dispatch_empty_problem_counterexample :
    (get_agent_response agents (.responds 200 "irrelevant" (.exn "bad json"))
        "🤖 General Assistant" "" "some context").networkCalls = 1
    ∧ (get_agent_response agents (.responds 200 "irrelevant" (.exn "bad json"))
        "🤖 General Assistant" "" "some context").result
      = .ok "Error getting response from 🤖 General Assistant: bad json" :=
  ⟨rfl, rfl⟩

/-- C1 (amended): an empty problem description is rejected at the UI
boundary, not inside the dispatcher: the submit handler shows the
describe-your-problem warning, performs zero network calls, and leaves the
task list unchanged; the dispatcher itself performs no emptiness check and
issues the network call when invoked directly with an empty description. -/
theorem empty_problem_ui_gate :
    (∀ (ag : List (String × Persona)) (provider : ProviderBehavior) (tasks : List Task)
        (sel : Option String) (ctx pri urg created : String),
      (submit ag provider tasks sel "" ctx pri urg created).networkCalls = 0
      ∧ (submit ag provider tasks sel "" ctx pri urg created).event = .warnedDescribeProblem
      ∧ (submit ag provider tasks sel "" ctx pri urg created).tasks = tasks)
    ∧ (∀ (name ctx : String) (info : Persona) (provider : ProviderBehavior),
      dictLookup agents name = some info →
      (get_agent_response agents provider name "" ctx).networkCalls = 1) := by
  constructor
  · intro ag provider tasks sel ctx pri urg created
    exact ⟨rfl, rfl, rfl⟩
  · intro name ctx info provider h
    exact (gar_known agents provider name "" ctx info h).2.1

/-- Witness for the amended C1 at concrete inputs. -/
theorem empty_problem_ui_gate_witness :
    (submit agents (.raises "timeout") [] (some "📊 Data Analyst") "" "c" "Low" "High" "t").networkCalls
      = 0
    ∧ (get_agent_response agents (.raises "timeout") "📊 Data Analyst" "" "c").networkCalls = 1 :=
  ⟨(empty_problem_ui_gate.1 agents (.raises "timeout") [] (some "📊 Data Analyst") "c" "Low"
      "High" "t").1,
   empty_problem_ui_gate.2 "📊 Data Analyst" "c" _ (.raises "timeout") rfl⟩

/-- C2 (counterexample): dispatching with the unknown persona identifier
"Project Manager" raises an uncaught KeyError instead of returning an
error string, and the string returned for an HTTP 401 with a known persona
does not contain the persona name. -/
theorem dispatch_boundary_counterexample :
    (get_agent_response agents (.responds 200 "ok" (.exn "boom"))
        "Project Manager" "fix defects" "").result = .exn "KeyError: Project Manager"
    ∧ (get_agent_response agents (.responds 401 "Unauthorized" (.exn "boom"))
        "🤖 General Assistant" "fix defects" "").result = .ok "Error: 401 - Unauthorized"
    ∧ strHasSub "Error: 401 - Unauthorized" "🤖 General Assistant" = false :=
  ⟨rfl, rfl, rfl⟩

/-- C2 (amended): for persona identifiers present in the registry no
failure propagates out of dispatch — every outcome comes back as a string,
and an exception during the request phase is converted to a string
prefixed with the persona name and error context; an unknown persona
identifier, however, raises an uncaught KeyError before any network
call. -/
theorem dispatch_boundary_behavior :
    (∀ (name : String) (info : Persona) (problem ctx : String) (provider : ProviderBehavior),
      dictLookup agents name = some info →
      ∃ s, (get_agent_response agents provider name problem ctx).result = .ok s)
    ∧ (∀ (name : String) (info : Persona) (problem ctx msg : String),
      dictLookup agents name = some info →
      (get_agent_response agents (.raises msg) name problem ctx).result
        = .ok ("Error getting response from " ++ name ++ ": " ++ msg))
    ∧ (∀ (name problem ctx : String) (provider : ProviderBehavior),
      dictLookup agents name = none →
      (get_agent_response agents provider name problem ctx).result
        = .exn ("KeyError: " ++ name)
      ∧ (get_agent_response agents provider name problem ctx).networkCalls = 0) := by
  refine ⟨?_, ?_, ?_⟩
  · intro name info problem ctx provider h
    exact (gar_known agents provider name problem ctx info h).1
  · intro name info problem ctx msg h
    rw [gar_eq_raises agents name problem ctx msg info h]
  · intro name problem ctx provider h
    exact gar_unknown agents provider name problem ctx h

/-- Witness for the amended C2 at concrete inputs. -/
theorem dispatch_boundary_behavior_witness :
    (∃ s, (get_agent_response agents (.responds 500 "oops" (.exn "x"))
        "👥 Leadership Coach" "p" "c").result = .ok s)
    ∧ (get_agent_response agents (.raises "timeout") "👥 Leadership Coach" "p" "c").result
      = .ok ("Error getting response from " ++ "👥 Leadership Coach" ++ ": " ++ "timeout")
    ∧ (get_agent_response agents (.raises "x") "Unknown" "p" "c").result
      = .exn ("KeyError: " ++ "Unknown") :=
  ⟨dispatch_boundary_behavior.1 "👥 Leadership Coach" _ "p" "c" (.responds 500 "oops" (.exn "x"))
      rfl,
   dispatch_boundary_behavior.2.1 "👥 Leadership Coach" _ "p" "c" "timeout" rfl,
   (dispatch_boundary_behavior.2.2 "Unknown" "p" "c" (.raises "x") rfl).1⟩

/-- C3: for every registered persona and non-empty problem description, an
HTTP 200 response whose parsed body has a content array whose first
element has text field t makes dispatch return exactly t. -/
theorem dispatch_returns_completion_text (name : String) (info : Persona)
    (problem_description additional_context body t : String) (j : Json)
    (hn : dictLookup agents name = some info)
    (hp : problem_description ≠ "")
    (hj : contentFirstText j = .ok (.str t)) :
    (get_agent_response agents (.responds 200 body (.ok j)) name problem_description
        additional_context).result = .ok t := by
  rw [gar_eq_200_extract agents name problem_description additional_context body info j
    (.str t) hn hj]
  rfl

/-- Witness for C3: a mocked 200 response with content [..text "Hello"..]
returns exactly "Hello". -/
theorem dispatch_returns_completion_text_witness :
    (get_agent_response agents
        (.responds 200 "raw" (.ok (.obj [("content", .arr [.obj [("text", .str "Hello")]])])))
        "📋 Checksheet Specialist" "fix defects" "").result = .ok "Hello" :=
  dispatch_returns_completion_text "📋 Checksheet Specialist" _ "fix defects" "" "raw" "Hello"
    (.obj [("content", .arr [.obj [("text", .str "Hello")]])]) rfl (by decide) rfl

/-- C4: for every registered persona and non-empty problem description, a
non-200 response makes dispatch return, not raise, the descriptive string
"Error: <status> - <body>" (containing the status code and body text),
with exactly one network call (no retry). -/
theorem dispatch_non200_returns_error_string (name : String) (info : Persona)
    (problem_description additional_context body : String) (status_code : Nat)
    (json : PyResult Json)
    (hn : dictLookup agents name = some info)
    (hp : problem_description ≠ "")
    (hs : status_code ≠ 200) :
    (get_agent_response agents (.responds status_code body json) name
        problem_description additional_context).result
      = .ok ("Error: " ++ toString status_code ++ " - " ++ body)
    ∧ (get_agent_response agents (.responds status_code body json) name
        problem_description additional_context).networkCalls = 1 := by
  rw [gar_eq_non200 agents name problem_description additional_context body info status_code
    json hn hs]
  exact ⟨rfl, rfl⟩

/-- Witness for C4: a mocked 401 response yields the string containing 401
and does not raise. -/
theorem dispatch_non200_returns_error_string_witness :
    (get_agent_response agents (.responds 401 "Unauthorized" (.exn "x"))
        "📈 Spreadsheet Expert" "fix defects" "").result
      = .ok ("Error: " ++ toString 401 ++ " - " ++ "Unauthorized")
    ∧ (get_agent_response agents (.responds 401 "Unauthorized" (.exn "x"))
        "📈 Spreadsheet Expert" "fix defects" "").networkCalls = 1 :=
  dispatch_non200_returns_error_string "📈 Spreadsheet Expert" _ "fix defects" ""
    "Unauthorized" 401 (.exn "x") rfl (by decide) (by decide)

/-- C7: for every persona id present in the registry, get (dict indexing)
succeeds and returns exactly the persona the registry pairs with that id,
and conversely every successful get returns a registry entry for the
requested id; for an id not present it raises KeyError (the NotFoundError
of the spec).  The lookup is a pure function of the registry, so it has no
side effects. -/
theorem registryGet_spec :
    (∀ (persona_id : String) (p : Persona),
      (persona_id, p) ∈ agents → registryGet persona_id = .ok p)
    ∧ (∀ (persona_id : String) (p : Persona),
      registryGet persona_id = .ok p → (persona_id, p) ∈ agents)
    ∧ (∀ persona_id : String, persona_id ∉ agents.map Prod.fst →
      registryGet persona_id = .exn ("KeyError: " ++ persona_id)) := by
  refine ⟨?_, ?_, ?_⟩
  · intro persona_id p h
    unfold registryGet
    rw [dictLookup_of_mem_nodup agents persona_id p agents_keys_nodup h]
  · intro persona_id p h
    unfold registryGet at h
    cases hl : dictLookup agents persona_id with
    | none => rw [hl] at h; exact absurd h (by simp)
    | some q =>
      rw [hl] at h
      injection h with h2
      subst h2
      exact dictLookup_mem _ _ _ hl
  · intro persona_id h
    unfold registryGet
    rw [dictLookup_eq_none _ _ h]

set_option maxRecDepth 4096 in
/-- Witness for C7: a present id makes get succeed with its persona, and
an absent id raises KeyError. -/
theorem registryGet_spec_witness :
    registryGet "📊 Data Analyst"
      = .ok { description := "Analyzes data, creates visualizations, and provides insights",
              prompt_prefix := "You are a Data Analyst expert in statistical analysis, data visualization, and business intelligence. Provide clear insights with actionable recommendations.",
              color := "#4ECDC4" }
    ∧ ("📊 Data Analyst",
        { description := "Analyzes data, creates visualizations, and provides insights",
          prompt_prefix := "You are a Data Analyst expert in statistical analysis, data visualization, and business intelligence. Provide clear insights with actionable recommendations.",
          color := "#4ECDC4" }) ∈ agents
    ∧ registryGet "Project Manager" = .exn ("KeyError: " ++ "Project Manager") :=
  ⟨registryGet_spec.1 "📊 Data Analyst" _ (by decide),
   registryGet_spec.2.1 "📊 Data Analyst" _ (by decide),
   registryGet_spec.2.2 "Project Manager" (by decide)⟩

/-- C8: the registry listing is identical at every point of every session:
running any two action sequences from the initial state yields the same
ordered persona sequence, so calling list twice in succession returns
identical ordered sequences and no operation mutates the registry. -/
theorem registryList_stable :
    ∀ acts1 acts2 : List Action,
      registryList (run initState acts1) = registryList (run initState (acts1 ++ acts2)) := by
  intro acts1 acts2
  unfold registryList
  rw [run_agents acts1 initState rfl, run_agents (acts1 ++ acts2) initState rfl]

set_option maxRecDepth 8192 in
/-- C9: for every registered persona, non-empty problem description and
context, the prompt sent to the provider is the single string consisting
of, in order, the persona prompt-prefix, the problem description, the
additional context, and the fixed instructional suffix whose numbered
items request the five sections (analysis, recommendations, action items,
expected outcomes, helpful templates). -/
theorem dispatch_prompt_structure (name : String) (info : Persona)
    (problem_description additional_context : String) (provider : ProviderBehavior)
    (hn : dictLookup agents name = some info)
    (hp : problem_description ≠ "") :
    (get_agent_response agents provider name problem_description additional_context).sentPrompt
      = some (promptIntro ++ Persona.prompt_prefix info ++ promptMid1 ++ problem_description
          ++ promptMid2 ++ additional_context ++ promptTail)
    ∧ (∃ s1 s2 s3 s4 s5 s6, promptTail
        = s1 ++ "Analysis of the situation"
          ++ s2 ++ "Specific recommendations or solutions"
          ++ s3 ++ "Step-by-step action items"
          ++ s4 ++ "Expected outcomes or benefits"
          ++ s5 ++ "Any templates, examples, or tools that would be helpful" ++ s6) := by
  constructor
  · exact (gar_known agents provider name problem_description additional_context info hn).2.2
  · exact ⟨"\n        \n        Please provide a comprehensive response that includes:\n        1. ",
      "\n        2. ", "\n        3. ", " where applicable\n        4. ", "\n        5. ",
      "\n        \n        Format your response clearly with headers and bullet points where appropriate.\n        ",
      by decide⟩

set_option maxRecDepth 8192 in
/-- Witness for C9 at concrete inputs: the prompt sent for the Strategic
Advisor persona. -/
theorem dispatch_prompt_structure_witness :
    (get_agent_response agents (.raises "t") "💡 Strategic Advisor" "fix defects" "ASAP").sentPrompt
      = some (promptIntro
          ++ "You are a Strategic Business Advisor with expertise in business strategy, decision-making frameworks, and organizational development. Provide thoughtful, actionable advice."
          ++ promptMid1 ++ "fix defects" ++ promptMid2 ++ "ASAP" ++ promptTail) :=
  (dispatch_prompt_structure "💡 Strategic Advisor" _ "fix defects" "ASAP" (.raises "t") rfl
    (by decide)).1

/-- C10: whenever the Problem Solver submit handler dispatches, the context
string passed to the dispatcher equals "Priority: <priority>, Urgency:
<urgency>. <additional_context>" and is never the bare additional context
alone. -/
theorem submit_context_embeds_priority_urgency
    (ag : List (String × Persona)) (provider : ProviderBehavior) (tasks : List Task)
    (name problem_description additional_context priority urgency created : String)
    (hp : problem_description ≠ "") (hn : name ≠ "") :
    (submit ag provider tasks (some name) problem_description additional_context priority
        urgency created).passedContext
      = some ("Priority: " ++ priority ++ ", Urgency: " ++ urgency ++ ". "
          ++ additional_context)
    ∧ (∀ s, (submit ag provider tasks (some name) problem_description additional_context
        priority urgency created).passedContext = some s → s ≠ additional_context) := by
  have he := submit_eq_record ag provider tasks name problem_description additional_context
    priority urgency created hp hn
  constructor
  · rw [he, recordSubmit_passedContext]
    rfl
  · intro s hs
    rw [he, recordSubmit_passedContext] at hs
    obtain rfl := Option.some.inj hs
    intro hcon
    have hlen := congrArg String.length hcon
    simp only [uiContext, String.length_append] at hlen
    have h10 : ("Priority: " : String).length = 10 := rfl
    have h11 : (", Urgency: " : String).length = 11 := rfl
    have h2 : (". " : String).length = 2 := rfl
    rw [h10, h11, h2] at hlen
    omega

/-- Witness for C10 at concrete inputs. -/
theorem submit_context_embeds_priority_urgency_witness :
    (submit agents (.raises "t") [] (some "🎯 Productivity Coach") "fix defects" "ctx" "High"
        "Low" "now").passedContext
      = some ("Priority: " ++ "High" ++ ", Urgency: " ++ "Low" ++ ". " ++ "ctx") :=
  (submit_context_embeds_priority_urgency agents (.raises "t") [] "🎯 Productivity Coach"
    "fix defects" "ctx" "High" "Low" "now" (by decide) (by decide)).1

/-- When the dispatch raised, the handler aborts: no task is appended. -/
theorem recordSubmit_exn (tasks : List Task)
    (name problem_description priority urgency created context e : String)
    (o : DispatchOutcome) (h : o.result = .exn e) :
    recordSubmit tasks name problem_description priority urgency created context o
      = { tasks := tasks, networkCalls := o.networkCalls, passedContext := some context,
          sentPrompt := o.sentPrompt, event := .uncaught e } := by
  unfold recordSubmit
  rw [h]

/-- A successful-dispatch submit action appends exactly one task carrying
the next id, and leaves the persona dictionary unchanged. -/
theorem step_submit_ids (s : State) (a : Action) (hag : s.agents = agents)
    (hsucc : successfulDispatch a) :
    (step s a).tasks.map Task.id = s.tasks.map Task.id ++ [s.tasks.length + 1]
    ∧ (step s a).agents = agents := by
  cases a with
  | clearAll => exact absurd hsucc (by simp [successfulDispatch])
  | setApiKey => exact absurd hsucc (by simp [successfulDispatch])
  | submitA provider sel problem ctx pri urg created =>
    obtain ⟨hp, name, info, hsel, hl⟩ := hsucc
    subst hsel
    have hn : ¬ name = "" := known_name_ne_empty name info hl
    have hl2 : dictLookup s.agents name = some info := by rw [hag]; exact hl
    obtain ⟨r, hr⟩ :=
      (gar_known s.agents provider name problem (uiContext pri urg ctx) info hl2).1
    refine ⟨?_, hag⟩
    show ((submit s.agents provider s.tasks (some name) problem ctx pri urg
      created).tasks).map Task.id = _
    rw [submit_eq_record s.agents provider s.tasks name problem ctx pri urg created hp hn]
    rw [recordSubmit_ok s.tasks name problem pri urg created _ r _ hr]
    simp

/-- Running a sequence of successful dispatches extends the id sequence
1..n by one id per dispatch. -/
theorem run_ids (acts : List Action) :
    ∀ s : State, s.agents = agents →
      (∀ a ∈ acts, successfulDispatch a) →
      s.tasks.map Task.id = List.range' 1 s.tasks.length →
      (run s acts).tasks.map Task.id = List.range' 1 (s.tasks.length + acts.length) := by
  induction acts with
  | nil =>
    intro s hag hall hids
    simpa using hids
  | cons a tl ih =>
    intro s hag hall hids
    have hsucc := hall a (List.mem_cons_self a tl)
    obtain ⟨hmap, hag2⟩ := step_submit_ids s a hag hsucc
    have hlen : (step s a).tasks.length = s.tasks.length + 1 := by
      have h2 := congrArg List.length hmap
      simpa using h2
    have hids2 : (step s a).tasks.map Task.id = List.range' 1 (step s a).tasks.length := by
      rw [hmap, hids, hlen]
      have hr : List.range' 1 (s.tasks.length + 1)
          = List.range' 1 s.tasks.length ++ [s.tasks.length + 1] := by
        simpa [Nat.add_comm] using @List.range'_concat 1 1 s.tasks.length
      rw [hr]
    have hrun : run s (a :: tl) = run (step s a) tl := rfl
    rw [hrun]
    have h3 := ih (step s a) hag2 (fun x hx => hall x (List.mem_cons_of_mem a hx)) hids2
    rw [h3, hlen]
    have hlc : (a :: tl).length = tl.length + 1 := rfl
    rw [hlc]
    congr 1
    omega

/-- C5: starting from the empty task list, after any sequence of N
successful dispatches the log holds exactly N entries whose ids are
1, 2, ..., N in submission order, and the clear-all action resets the list
to empty. -/
theorem task_log_ids_increasing_and_clear :
    (∀ acts : List Action, (∀ a ∈ acts, successfulDispatch a) →
      (run initState acts).tasks.map Task.id = List.range' 1 acts.length)
    ∧ (∀ s : State, (step s .clearAll).tasks = []) := by
  constructor
  · intro acts hall
    have h := run_ids acts initState rfl hall rfl
    simpa [initState] using h
  · intro s
    rfl

set_option maxRecDepth 8192 in
/-- Witness for C5: one successful dispatch from the empty log yields the
id sequence [1], and clearing empties the log. -/
theorem task_log_ids_increasing_and_clear_witness :
    (run initState
        [.submitA
            (.responds 200 "raw" (.ok (.obj [("content", .arr [.obj [("text", .str "Hello")]])])))
            (some "🤖 General Assistant") "fix defects" "" "Low" "Low" "2024-01-01"]).tasks.map
        Task.id
      = List.range' 1 1
    ∧ (step initState .clearAll).tasks = [] :=
  ⟨task_log_ids_increasing_and_clear.1 _ (by
      intro a ha
      rw [List.mem_singleton] at ha
      subst ha
      exact ⟨by decide, "🤖 General Assistant", _, rfl, rfl⟩),
   task_log_ids_increasing_and_clear.2 initState⟩

set_option maxRecDepth 8192 in
/-- C6 (counterexample): a dispatch that ended in an error (HTTP 401, so
the response recorded is the error string) is still logged with terminal
status "Completed"; no Failed or error marker is written. -/
theorem task_status_counterexample :
    (submit agents (.responds 401 "Unauthorized" (.exn "no json")) []
        (some "🤖 General Assistant") "fix defects" "" "High" "High" "2024-01-01 10:00").tasks
      = [{ id := 1, title := "fix defects", agent := "🤖 General Assistant",
           priority := "High", urgency := "High", status := "Completed",
           created := "2024-01-01 10:00",
           response := "Error: 401 - Unauthorized" }] := by
  decide

/-- C6 (amended): every task the submit handler appends to the log has
terminal status "Completed", both when the provider returned a completion
and when the dispatch ended in an error string; no Failed marker ever
occurs. -/
theorem task_status_always_completed (ag : List (String × Persona))
    (provider : ProviderBehavior) (tasks : List Task) (sel : Option String)
    (problem_description additional_context priority urgency created : String) (t : Task)
    (h : (submit ag provider tasks sel problem_description additional_context priority
        urgency created).tasks = tasks ++ [t]) :
    t.status = "Completed" := by
  unfold submit at h
  split at h
  · have h2 := congrArg List.length h
    simp at h2
  · split at h
    · have h2 := congrArg List.length h
      simp at h2
    · rename_i name
      split at h
      · have h2 := congrArg List.length h
        simp at h2
      · cases hres : (get_agent_response ag provider name problem_description
            (uiContext priority urgency additional_context)).result with
        | exn e =>
          rw [recordSubmit_exn tasks name problem_description priority urgency created _ e _
            hres] at h
          have h2 := congrArg List.length h
          simp at h2
        | ok r =>
          rw [recordSubmit_ok tasks name problem_description priority urgency created _ r _
            hres] at h
          have h3 : ({ id := tasks.length + 1,
                       title := mkTitle problem_description,
                       agent := name, priority := priority, urgency := urgency,
                       status := "Completed", created := created,
                       response := r } : Task) = t := by
            simpa using h
          rw [← h3]

set_option maxRecDepth 8192 in
/-- Witness for the amended C6: a concrete successful submit appends a
task whose status is "Completed". -/
theorem task_status_always_completed_witness :
    ({ id := 1, title := "fix defects", agent := "🎯 Six Sigma Black Belt",
       priority := "Low", urgency := "Low", status := "Completed", created := "now",
       response := "OK" } : Task).status = "Completed" :=
  task_status_always_completed agents
    (.responds 200 "raw" (.ok (.obj [("content", .arr [.obj [("text", .str "OK")]])])))
    [] (some "🎯 Six Sigma Black Belt") "fix defects" "" "Low" "Low" "now" _ (by decide)

end WorkAssist
